import Mathlib

/-!
Verification of the FinSecure Automated DevSecOps Pipeline repository.

Part 1 models the Security Gate Engine described in the specification
(Finding Normalizer, Aggregator, Severity Policy).  The repository ships
no implementation of this engine under its source tree - the spec
elevates a few lines of CI glue to a clean-slate design - so every
definition in the SecurityGate namespace is modelled from the spec text.

Part 2 models the Express backend in server.js (OTP endpoint, Joi
validation, EmailJS configuration check).

Part 3 models the single-page application routing and OTP generation
code (showPage, the nav-link guard, sendOTP).
-/

namespace SecurityGate

/-- Modelled from the spec: the ordered five-level severity enum of the
Finding data model, from critical down to info. -/
inductive Severity where
  | critical
  | high
  | medium
  | low
  | info
deriving DecidableEq

/-- Modelled from the spec: the three scan sources of the pipeline. -/
inductive Source where
  | staticAnalysis
  | dependencyScan
  | dynamicScan
deriving DecidableEq

/-- Modelled from the spec: the status of one scanner run. -/
inductive ScanStatus where
  | ok
  | timedOut
  | errored
deriving DecidableEq

/-- Modelled from the spec: a single security issue reported by one
scanner, normalized to the common severity model. -/
structure Finding where
  id : String
  source : Source
  severity : Severity
  category : String
  location : Option String
  description : String
  firstSeen : Nat
deriving DecidableEq

/-- Modelled from the spec: one scanner's complete output for a run. -/
structure ScanResult where
  source : Source
  startedAt : Nat
  completedAt : Nat
  status : ScanStatus
  findings : List Finding
deriving DecidableEq

/-- Modelled from the spec: the countsBySeverity mapping of an
AggregatedReport, one counter per severity tier. -/
structure SeverityCounts where
  critical : Nat
  high : Nat
  medium : Nat
  low : Nat
  info : Nat
deriving DecidableEq

/-- All five counters at zero. -/
def SeverityCounts.zero : SeverityCounts := ⟨0, 0, 0, 0, 0⟩

/-- Read the counter of one tier. -/
def SeverityCounts.get (c : SeverityCounts) : Severity → Nat
  | .critical => c.critical
  | .high => c.high
  | .medium => c.medium
  | .low => c.low
  | .info => c.info

/-- Bump the counter of one tier by one. -/
def SeverityCounts.incr (c : SeverityCounts) : Severity → SeverityCounts
  | .critical => { c with critical := c.critical + 1 }
  | .high => { c with high := c.high + 1 }
  | .medium => { c with medium := c.medium + 1 }
  | .low => { c with low := c.low + 1 }
  | .info => { c with info := c.info + 1 }

/-- Sum of the five counters. -/
def SeverityCounts.total (c : SeverityCounts) : Nat :=
  c.critical + c.high + c.medium + c.low + c.info

/-- Modelled from the spec: tally the findings of one result into an
accumulator, one increment per finding. -/
def countFindings (fs : List Finding) (acc : SeverityCounts) : SeverityCounts :=
  fs.foldl (fun a f => a.incr f.severity) acc

/-- Modelled from the spec: countsBySeverity computed by a single pass
over all findings of all results. -/
def countsOf (results : List ScanResult) : SeverityCounts :=
  results.foldl (fun a r => countFindings r.findings a) SeverityCounts.zero

/-- Modelled from the spec: the merged view across all ScanResults for
one pipeline run. -/
structure AggregatedReport where
  runId : String
  generatedAt : Nat
  results : List ScanResult
  countsBySeverity : SeverityCounts
deriving DecidableEq

/-- Modelled from the spec: the Aggregator combines zero or more
ScanResults into one AggregatedReport, recomputing countsBySeverity
from the results (never mutated directly). -/
def aggregate (runId : String) (generatedAt : Nat) (results : List ScanResult) :
    AggregatedReport :=
  { runId := runId
    generatedAt := generatedAt
    results := results
    countsBySeverity := countsOf results }

/-- Modelled from the spec: operator-supplied thresholds (max allowed
count per severity tier, none meaning unlimited), the configured
sources, and the indeterminateOnMissingSource flag.  The optional
per-source overrides of the spec are not modelled; no claim depends on
them. -/
structure SeverityPolicyConfig where
  maxCritical : Option Nat
  maxHigh : Option Nat
  maxMedium : Option Nat
  maxLow : Option Nat
  maxInfo : Option Nat
  expectedSources : List Source
  indeterminateOnMissingSource : Bool
deriving DecidableEq

/-- The configured maximum for one tier. -/
def SeverityPolicyConfig.maxAllowed (cfg : SeverityPolicyConfig) : Severity → Option Nat
  | .critical => cfg.maxCritical
  | .high => cfg.maxHigh
  | .medium => cfg.maxMedium
  | .low => cfg.maxLow
  | .info => cfg.maxInfo

/-- Modelled from the spec: the outcome of the gate decision. -/
inductive Outcome where
  | pass
  | blocked
  | indeterminate
deriving DecidableEq

/-- Modelled from the spec: the decision object computed once per run
by the Severity Policy. -/
structure GateVerdict where
  outcome : Outcome
  reasons : List String
  blockingSource : List Source
deriving DecidableEq

/-- Modelled from the spec: the tiers the policy walks, from critical
down to low. -/
def checkedTiers : List Severity := [.critical, .high, .medium, .low]

/-- Whether one tier count exceeds its configured maximum; a tier with
no configured maximum (unlimited) is never violated. -/
def tierViolated (report : AggregatedReport) (cfg : SeverityPolicyConfig)
    (t : Severity) : Bool :=
  match cfg.maxAllowed t with
  | none => false
  | some m => if m < report.countsBySeverity.get t then true else false

/-- The tiers of checkedTiers whose count exceeds the configured
maximum. -/
def violatedTiers (report : AggregatedReport) (cfg : SeverityPolicyConfig) :
    List Severity :=
  checkedTiers.filter (fun t => tierViolated report cfg t)

/-- Display name of a severity tier. -/
def severityName : Severity → String
  | .critical => "critical"
  | .high => "high"
  | .medium => "medium"
  | .low => "low"
  | .info => "info"

/-- Display name of a source. -/
def sourceName : Source → String
  | .staticAnalysis => "static-analysis"
  | .dependencyScan => "dependency-scan"
  | .dynamicScan => "dynamic-scan"

/-- Modelled from the spec: the reason string appended for one violated
tier, naming the count and the configured maximum. -/
def reasonFor (report : AggregatedReport) (cfg : SeverityPolicyConfig)
    (t : Severity) : String :=
  Nat.repr (report.countsBySeverity.get t) ++ " " ++ severityName t ++
    " findings exceed the configured maximum of " ++
    Nat.repr ((cfg.maxAllowed t).getD 0)

/-- Modelled from the spec: the reason recorded for a missing or
errored source. -/
def missingReason (s : Source) : String :=
  "expected source " ++ sourceName s ++ " is absent or did not complete"

/-- Find the result supplied for one source, if any. -/
def lookupResult : List ScanResult → Source → Option ScanResult
  | [], _ => none
  | r :: rest, s => if r.source = s then some r else lookupResult rest s

/-- Modelled from the spec: an expected source is disqualifying when it
is absent from the results or its status is not ok. -/
def sourceMissing (results : List ScanResult) (s : Source) : Bool :=
  match lookupResult results s with
  | none => true
  | some r => if r.status = .ok then false else true

/-- The expected sources that are absent or not ok. -/
def missingSources (report : AggregatedReport) (cfg : SeverityPolicyConfig) :
    List Source :=
  cfg.expectedSources.filter (fun s => sourceMissing report.results s)

/-- Modelled from the spec: the sources contributing findings at a
violated tier. -/
def tierBlockingSources (report : AggregatedReport) (t : Severity) : List Source :=
  (report.results.filter
    (fun r => r.findings.any (fun f => if f.severity = t then true else false))).map
    ScanResult.source

/-- Modelled from the spec: the pure Severity Policy decision function.
Every tier from critical down to low is checked and every violated tier
contributes a reason (no short-circuit); any violation yields blocked;
otherwise a disqualifying missing source with the
indeterminateOnMissingSource flag set yields indeterminate; otherwise
pass.  Blocked is the strictest outcome and always wins. -/
def decide (report : AggregatedReport) (cfg : SeverityPolicyConfig) : GateVerdict :=
  let violated := violatedTiers report cfg
  let missing := missingSources report cfg
  let reasons := violated.map (fun t => reasonFor report cfg t) ++
    missing.map missingReason
  if violated = [] then
    if missing ≠ [] ∧ cfg.indeterminateOnMissingSource = true then
      { outcome := .indeterminate, reasons := reasons, blockingSource := [] }
    else
      { outcome := .pass, reasons := reasons, blockingSource := [] }
  else
    { outcome := .blocked, reasons := reasons
      blockingSource := violated.flatMap (fun t => tierBlockingSources report t) }

/-- Modelled from the spec: append one new finding to the ScanResult of
one source, leaving every other result unchanged. -/
def addFindingToSource (results : List ScanResult) (src : Source) (f : Finding) :
    List ScanResult :=
  results.map (fun r =>
    if r.source = src then { r with findings := r.findings ++ [f] } else r)

/-- Name of an outcome, for serialization. -/
def outcomeName : Outcome → String
  | .pass => "pass"
  | .blocked => "blocked"
  | .indeterminate => "indeterminate"

/-- Modelled from the spec: byte serialization of a GateVerdict, used
to state audit reproducibility. -/
def serializeVerdict (v : GateVerdict) : String :=
  outcomeName v.outcome ++ "|" ++ String.intercalate ";" v.reasons ++ "|" ++
    String.intercalate "," (v.blockingSource.map sourceName)

/-- Modelled from the spec: one raw finding of a scanner report before
normalization, carrying the native severity label of the tool. -/
structure RawFinding where
  id : String
  severityLabel : String
  category : String
  location : Option String
  description : String
deriving DecidableEq

/-- Look a native severity label up in a mapping table. -/
def lookupLabel : List (String × Severity) → String → Option Severity
  | [], _ => none
  | (k, v) :: rest, label => if k = label then some v else lookupLabel rest label

/-- Modelled from the spec: the Finding Normalizer maps every native
severity label through the mapping table; an unmapped label fails
closed to high. -/
def normalizeSeverity (table : List (String × Severity)) (label : String) : Severity :=
  match lookupLabel table label with
  | some s => s
  | none => .high

/-- Normalize one raw finding of one source. -/
def normalizeFinding (src : Source) (table : List (String × Severity)) (now : Nat)
    (raw : RawFinding) : Finding :=
  { id := raw.id
    source := src
    severity := normalizeSeverity table raw.severityLabel
    category := raw.category
    location := raw.location
    description := raw.description
    firstSeen := now }

/-- Modelled from the spec: the Finding Normalizer output, one Finding
per raw finding, none dropped. -/
def normalizeFindings (src : Source) (table : List (String × Severity)) (now : Nat)
    (raws : List RawFinding) : List Finding :=
  raws.map (fun raw => normalizeFinding src table now raw)

/-- Number of findings of one tier in a list of findings. -/
def sevCountF (t : Severity) (fs : List Finding) : Nat :=
  (fs.filter (fun f => if f.severity = t then true else false)).length

/-- Number of findings of one tier across a list of results. -/
def sevCountR (t : Severity) (rs : List ScanResult) : Nat :=
  (rs.map (fun r => sevCountF t r.findings)).sum

/-- Total number of findings across a list of results. -/
def totalFindings (rs : List ScanResult) : Nat :=
  (rs.map (fun r => r.findings.length)).sum

end SecurityGate

namespace Server

/-- The four EmailJS credentials read from the environment by
server.js; an environment variable is either unset or a string. -/
structure EmailJSEnv where
  serviceId : Option String
  templateId : Option String
  publicKey : Option String
  privateKey : Option String
deriving DecidableEq

/-- JavaScript truthiness of an environment value: unset and the empty
string are falsy. -/
def truthy : Option String → Bool
  | none => false
  | some s => if s = "" then false else true

/-- isEmailJSConfigured of server.js: all four credentials present
(truthy). -/
def isEmailJSConfigured (env : EmailJSEnv) : Bool :=
  truthy env.serviceId && truthy env.templateId &&
    truthy env.publicKey && truthy env.privateKey

/-- A character code is a decimal digit (the character class of the
backslash-d regex atom). -/
def isDigitCode (c : Nat) : Bool :=
  decide (48 ≤ c ∧ c ≤ 57)

/-- The character codes of a string. -/
def strCodes (s : String) : List Nat :=
  s.data.map Char.toNat

/-- The six-decimal-digit pattern of the otpSchema code field, on
character codes: exactly six characters, all decimal digits. -/
def sixDigitCodes (l : List Nat) : Bool :=
  decide (l.length = 6) && l.all isDigitCode

/-- The six-decimal-digit pattern on a string. -/
def sixDigitCode (s : String) : Bool :=
  sixDigitCodes (strCodes s)

/-- Split a list of character codes on a separator code. -/
def splitOnCode (sep : Nat) : List Nat → List (List Nat)
  | [] => [[]]
  | c :: rest =>
    match splitOnCode sep rest with
    | [] => if c = sep then [[], []] else [[c]]
    | h :: t => if c = sep then [] :: h :: t else (c :: h) :: t

/-- Modelled from the spec: the email check of the external Joi
library used by otpSchema (the library itself is not repository code).
A string passes when it has exactly one at-sign (code 64), a nonempty
local part, and a domain of at least two nonempty dot-separated labels
whose final label has at least two characters. -/
def joiEmail (s : String) : Bool :=
  match splitOnCode 64 (strCodes s) with
  | [locPart, domain] =>
    let labels := splitOnCode 46 domain
    decide (locPart ≠ []) && decide (2 ≤ labels.length) &&
      labels.all (fun l => decide (l ≠ [])) &&
      (match labels.getLast? with
       | some tld => decide (2 ≤ tld.length)
       | none => false)
  | _ => false

/-- The JSON body of a POST to /api/send-otp: the two fields the
otpSchema declares, each possibly absent. -/
structure OtpRequestBody where
  «to» : Option String
  code : Option String
deriving DecidableEq

/-- The otpSchema of server.js: the to field is required and must be a
valid email, the code field is required and must be exactly six
decimal digits.  Returns the first validation error, or none when the
body is valid. -/
def otpSchemaValidate (b : OtpRequestBody) : Option String :=
  match b.«to» with
  | none => some "to is required"
  | some t =>
    if joiEmail t = false then some "to must be a valid email"
    else
      match b.code with
      | none => some "code is required"
      | some c =>
        if sixDigitCode c = false then
          some "code fails to match the required pattern"
        else none

/-- The observable parts of an HTTP response of the OTP route: status
code and the relevant JSON body fields. -/
structure HttpResponse where
  status : Nat
  statusField : Option String
  success : Option Bool
  message : Option String
  errorField : Option String
deriving DecidableEq

/-- Outcome of the external EmailJS fetch call made when the service is
configured. -/
inductive FetchOutcome where
  | ok
  | httpError
  | networkError
deriving DecidableEq

/-- The POST /api/send-otp route of server.js: the validateRequest
middleware applies otpSchemaValidate and answers 400 with a JSON body
whose status field is error on failure; otherwise, when EmailJS is not
configured the handler answers 200 with success true (demo mode); when
configured, the answer depends on the external fetch outcome. -/
def sendOtpRoute (env : EmailJSEnv) (fetch : FetchOutcome) (b : OtpRequestBody) :
    HttpResponse :=
  match otpSchemaValidate b with
  | some msg =>
    { status := 400, statusField := some "error", success := none
      message := some msg, errorField := none }
  | none =>
    if isEmailJSConfigured env = false then
      { status := 200, statusField := none, success := some true
        message := some "Verification code sent successfully (demo mode)"
        errorField := none }
    else
      match fetch with
      | .ok =>
        { status := 200, statusField := none, success := some true
          message := some "Verification code sent successfully"
          errorField := none }
      | .httpError =>
        { status := 500, statusField := none, success := none, message := none
          errorField := some "Failed to send verification email. Please try again later." }
      | .networkError =>
        { status := 500, statusField := none, success := none, message := none
          errorField := some "An error occurred while sending the verification email." }

end Server

namespace Spa

/-- The hidden flags of the seven pages of the single-page
application. -/
structure PagesHidden where
  login : Bool
  signup : Bool
  reset : Bool
  otp : Bool
  dashboard : Bool
  history : Bool
  terms : Bool
deriving DecidableEq

/-- Every page hidden. -/
def allHidden : PagesHidden :=
  ⟨true, true, true, true, true, true, true⟩

/-- Unhide the page of the given name, if it exists; an unknown name
leaves every page hidden, as in the code where the pages lookup
guards the unhide. -/
def unhide (p : PagesHidden) (name : String) : PagesHidden :=
  if name = "login" then { p with login := false }
  else if name = "signup" then { p with signup := false }
  else if name = "reset" then { p with reset := false }
  else if name = "otp" then { p with otp := false }
  else if name = "dashboard" then { p with dashboard := false }
  else if name = "history" then { p with history := false }
  else if name = "terms" then { p with terms := false }
  else p

/-- The parts of the SPA state that the routing code reads and writes:
the session login flag, the location hash, and the page hidden
flags. -/
structure SpaState where
  loggedIn : Bool
  hash : String
  pagesHidden : PagesHidden
deriving DecidableEq

/-- The protected pages of showPage. -/
def protectedPages : List String := ["dashboard", "history"]

/-- showPage of the SPA: a protected page with a logged-out session
redirects the hash to the login route and returns before touching any
page; otherwise all pages are hidden and the requested one is
unhidden.  The input-clearing and rendering side effects of the
function touch neither the hash nor the hidden flags and are not
modelled. -/
def showPage (st : SpaState) (name : String) : SpaState :=
  if name ∈ protectedPages ∧ st.loggedIn = false then
    { st with hash := "#/login" }
  else
    { st with pagesHidden := unhide allHidden name }

/-- Remove the first occurrence of the two-character route marker
(hash then slash) from a character list, as the replace call of the
code does on the href string. -/
def stripHashSlash : List Char → List Char
  | [] => []
  | [c] => [c]
  | a :: b :: rest =>
    if a = '#' ∧ b = '/' then rest else a :: stripHashSlash (b :: rest)

/-- The replace call of the routing code on a string. -/
def replaceHashSlash (s : String) : String :=
  String.mk (stripHashSlash s.data)

/-- The click guard installed on every nav link: an empty or bare-hash
href is ignored; a protected target with a logged-out session prevents
the default navigation and redirects the hash to the login route;
otherwise the default anchor navigation sets the hash to the href. -/
def navLinkClick (st : SpaState) (href : String) : SpaState :=
  if href = "" ∨ href = "#" then st
  else
    let target := replaceHashSlash href
    if (target = "dashboard" ∨ target = "history") ∧ st.loggedIn = false then
      { st with hash := "#/login" }
    else
      { st with hash := href }

/-- handleRoute of the SPA: read the route name from the hash, fall
back to dashboard or login on an empty hash, and show the page. -/
def handleRoute (st : SpaState) : SpaState :=
  let hash := replaceHashSlash st.hash
  let name := if hash = "" then (if st.loggedIn then "dashboard" else "login")
    else hash
  showPage st name

/-- sendOTP of the SPA: the numeric code derived from one 32-bit value
of crypto.getRandomValues. -/
def otpRandomValue (n : Nat) : Nat :=
  100000 + n % 900000

/-- The character codes of the OTP code string built by sendOTP: the
decimal representation of the derived value. -/
def otpCodeCodes (n : Nat) : List Nat :=
  ((Nat.digits 10 (otpRandomValue n)).reverse).map (fun d => 48 + d)

end Spa

/-- A sample report with one critical finding from static analysis. -/
def sampleReportOneCritical : SecurityGate.AggregatedReport :=
  SecurityGate.aggregate "run-1" 10
    [{ source := .staticAnalysis, startedAt := 0, completedAt := 5, status := .ok
       findings := [{ id := "S1", source := .staticAnalysis, severity := .critical
                      category := "SQL Injection", location := some "server.js"
                      description := "demo", firstSeen := 3 }] }]

/-- A sample config expecting all three sources, blocking on any
critical finding, with the indeterminate flag set. -/
def sampleCfgStrict : SecurityGate.SeverityPolicyConfig :=
  { maxCritical := some 0, maxHigh := some 2, maxMedium := some 10
    maxLow := none, maxInfo := none
    expectedSources := [.staticAnalysis, .dependencyScan, .dynamicScan]
    indeterminateOnMissingSource := true }

/-- The three results of the spec scenario: static analysis reports one
critical finding, dependency scan none, dynamic scan three high
findings. -/
def sampleScenarioResults : List SecurityGate.ScanResult :=
  [{ source := .staticAnalysis, startedAt := 0, completedAt := 4, status := .ok
     findings := [{ id := "S1", source := .staticAnalysis, severity := .critical
                    category := "SQL Injection", location := none
                    description := "demo", firstSeen := 1 }] }
   , { source := .dependencyScan, startedAt := 0, completedAt := 4, status := .ok
       findings := [] }
   , { source := .dynamicScan, startedAt := 0, completedAt := 4, status := .ok
       findings := [{ id := "D1", source := .dynamicScan, severity := .high
                      category := "XSS", location := none
                      description := "demo", firstSeen := 1 }
                    , { id := "D2", source := .dynamicScan, severity := .high
                        category := "CSRF", location := none
                        description := "demo", firstSeen := 1 }
                    , { id := "D3", source := .dynamicScan, severity := .high
                        category := "IDOR", location := none
                        description := "demo", firstSeen := 1 }] }]

/-- The report of the spec scenario. -/
def sampleScenarioReport : SecurityGate.AggregatedReport :=
  SecurityGate.aggregate "run-2" 20 sampleScenarioResults

/-- Results with every present source clean: static and dynamic scans
completed with zero findings, the dependency scan is absent. -/
def sampleCleanResults : List SecurityGate.ScanResult :=
  [{ source := .staticAnalysis, startedAt := 0, completedAt := 2, status := .ok
     findings := [] }
   , { source := .dynamicScan, startedAt := 0, completedAt := 2, status := .ok
       findings := [] }]

/-- A fresh critical finding used by the monotonicity witness. -/
def sampleNewCritical : SecurityGate.Finding :=
  { id := "S2", source := .staticAnalysis, severity := .critical
    category := "Command Injection", location := none
    description := "demo", firstSeen := 7 }

/-- A severity mapping table of a sample scanner. -/
def sampleTable : List (String × SecurityGate.Severity) :=
  [("CRITICAL", .critical), ("MAJOR", .medium), ("MINOR", .low)]

/-- Two raw findings of a sample scanner report, one with a label
outside the table. -/
def sampleRaws : List SecurityGate.RawFinding :=
  [{ id := "R1", severityLabel := "CRITICAL", category := "c1", location := none
     description := "d1" }
   , { id := "R2", severityLabel := "BLOCKER", category := "c2", location := none
       description := "d2" }]

/-- An environment with no EmailJS credential set. -/
def sampleEnvUnset : Server.EmailJSEnv :=
  { serviceId := none, templateId := none, publicKey := none, privateKey := none }

/-- The schema-valid OTP request body of the server test suite. -/
def sampleValidBody : Server.OtpRequestBody :=
  { «to» := some "finsecureapp@gmail.com", code := some "123456" }

/-- A logged-out SPA state sitting on the login route with every page
hidden. -/
def sampleLoggedOut : Spa.SpaState :=
  { loggedIn := false, hash := "#/login", pagesHidden := Spa.allHidden }



/-! Counting lemmas for the Aggregator. -/

theorem sg_get_incr (c : SecurityGate.SeverityCounts) (s t : SecurityGate.Severity) :
    (c.incr s).get t = c.get t + (if s = t then 1 else 0) := by
  cases s <;> cases t <;>
    simp [SecurityGate.SeverityCounts.incr, SecurityGate.SeverityCounts.get]

theorem sg_total_incr (c : SecurityGate.SeverityCounts) (s : SecurityGate.Severity) :
    (c.incr s).total = c.total + 1 := by
  cases s <;>
    simp [SecurityGate.SeverityCounts.incr, SecurityGate.SeverityCounts.total] <;>
    omega

theorem sg_countFindings_total (fs : List SecurityGate.Finding)
    (acc : SecurityGate.SeverityCounts) :
    (SecurityGate.countFindings fs acc).total = acc.total + fs.length := by
  induction fs generalizing acc with
  | nil => simp [SecurityGate.countFindings]
  | cons f fs ih =>
    simp only [SecurityGate.countFindings, List.foldl_cons] at *
    rw [ih, sg_total_incr]
    simp [List.length_cons]
    omega

theorem sg_countsOf_total_aux (rs : List SecurityGate.ScanResult)
    (acc : SecurityGate.SeverityCounts) :
    (rs.foldl (fun a r => SecurityGate.countFindings r.findings a) acc).total =
      acc.total + SecurityGate.totalFindings rs := by
  induction rs generalizing acc with
  | nil => simp [SecurityGate.totalFindings]
  | cons r rs ih =>
    simp only [List.foldl_cons]
    rw [ih, sg_countFindings_total]
    simp [SecurityGate.totalFindings]
    omega

theorem sg_total_zero : SecurityGate.SeverityCounts.zero.total = 0 := by
  simp [SecurityGate.SeverityCounts.zero, SecurityGate.SeverityCounts.total]

/-- C3: for every AggregatedReport produced by the Aggregator, the
total of countsBySeverity over the five severity tiers equals the
number of findings summed across all contained ScanResults; since the
Aggregator recomputes countsBySeverity from the results, the equality
holds for every results list, hence after every operation that changes
the results. -/
theorem c3_counts_invariant (runId : String) (generatedAt : Nat)
    (results : List SecurityGate.ScanResult) :
    ((SecurityGate.aggregate runId generatedAt results).countsBySeverity).total =
      SecurityGate.totalFindings
        (SecurityGate.aggregate runId generatedAt results).results := by
  simp only [SecurityGate.aggregate, SecurityGate.countsOf]
  rw [sg_countsOf_total_aux, sg_total_zero]
  omega

/-! Branch structure of the decision function. -/

theorem sg_decide_reasons (r : SecurityGate.AggregatedReport)
    (c : SecurityGate.SeverityPolicyConfig) :
    (SecurityGate.decide r c).reasons =
      (SecurityGate.violatedTiers r c).map (fun t => SecurityGate.reasonFor r c t) ++
        (SecurityGate.missingSources r c).map SecurityGate.missingReason := by
  simp only [SecurityGate.decide]
  split
  · split <;> rfl
  · rfl

theorem sg_decide_blocked_iff (r : SecurityGate.AggregatedReport)
    (c : SecurityGate.SeverityPolicyConfig) :
    (SecurityGate.decide r c).outcome = .blocked ↔
      SecurityGate.violatedTiers r c ≠ [] := by
  simp only [SecurityGate.decide]
  by_cases h : SecurityGate.violatedTiers r c = []
  · rw [if_pos h]
    by_cases hm : SecurityGate.missingSources r c ≠ [] ∧
        c.indeterminateOnMissingSource = true
    · rw [if_pos hm]
      simp [h]
    · rw [if_neg hm]
      simp [h]
  · rw [if_neg h]
    simp [h]

theorem sg_decide_pass_iff (r : SecurityGate.AggregatedReport)
    (c : SecurityGate.SeverityPolicyConfig) :
    (SecurityGate.decide r c).outcome = .pass ↔
      SecurityGate.violatedTiers r c = [] ∧
        ¬(SecurityGate.missingSources r c ≠ [] ∧
          c.indeterminateOnMissingSource = true) := by
  simp only [SecurityGate.decide]
  by_cases h : SecurityGate.violatedTiers r c = []
  · rw [if_pos h]
    by_cases hm : SecurityGate.missingSources r c ≠ [] ∧
        c.indeterminateOnMissingSource = true
    · rw [if_pos hm]
      simp [h, hm]
    · rw [if_neg hm]
      simp [h, hm]
  · rw [if_neg h]
    simp [h]

/-- C1: blocked is the strictest outcome and always wins: whenever some
tier count exceeds its configured maximum, decide returns blocked, for
every report and config, in particular also when expected sources are
absent or not ok and indeterminateOnMissingSource is set; indeterminate
never replaces blocked. -/
theorem c1_blocked_always_wins (report : SecurityGate.AggregatedReport)
    (cfg : SecurityGate.SeverityPolicyConfig)
    (h : SecurityGate.violatedTiers report cfg ≠ []) :
    (SecurityGate.decide report cfg).outcome = .blocked :=
  (sg_decide_blocked_iff report cfg).mpr h

/-- Witness for C1: one available source with a critical finding over
threshold, two expected sources absent, indeterminate flag set - the
verdict is still blocked. -/
theorem c1_witness :
    SecurityGate.violatedTiers sampleReportOneCritical sampleCfgStrict ≠ [] ∧
      (SecurityGate.decide sampleReportOneCritical sampleCfgStrict).outcome = .blocked :=
  ⟨by decide, c1_blocked_always_wins sampleReportOneCritical sampleCfgStrict (by decide)⟩

/-- C2: decide walks every tier from critical down to low and appends a
reason for every tier whose count exceeds its configured maximum; it
never stops at the first violated tier, so each violated tier has its
entry in the returned reasons. -/
theorem c2_all_violations_reported (report : SecurityGate.AggregatedReport)
    (cfg : SecurityGate.SeverityPolicyConfig) (t : SecurityGate.Severity)
    (ht : t ∈ SecurityGate.violatedTiers report cfg) :
    SecurityGate.reasonFor report cfg t ∈ (SecurityGate.decide report cfg).reasons := by
  rw [sg_decide_reasons]
  exact List.mem_append_left _ (List.mem_map_of_mem _ ht)

/-- Witness for C2, the spec scenario: one critical finding over a
0-threshold and three high findings over a 2-threshold; the reasons of
the verdict contain the critical entry and the high entry. -/
theorem c2_witness :
    SecurityGate.reasonFor sampleScenarioReport sampleCfgStrict .critical ∈
        (SecurityGate.decide sampleScenarioReport sampleCfgStrict).reasons ∧
      SecurityGate.reasonFor sampleScenarioReport sampleCfgStrict .high ∈
        (SecurityGate.decide sampleScenarioReport sampleCfgStrict).reasons :=
  ⟨c2_all_violations_reported sampleScenarioReport sampleCfgStrict .critical (by decide),
    c2_all_violations_reported sampleScenarioReport sampleCfgStrict .high (by decide)⟩

/-- C5: the Finding Normalizer maps every native severity label to
exactly one common-enum value through the table; a label not present in
the table is mapped to high, and no raw finding is dropped - the
normalized list has one Finding per raw finding. -/
theorem c5_normalizer_fails_closed (src : SecurityGate.Source)
    (table : List (String × SecurityGate.Severity)) (now : Nat)
    (raws : List SecurityGate.RawFinding) (label : String)
    (hl : SecurityGate.lookupLabel table label = none) :
    SecurityGate.normalizeSeverity table label = .high ∧
      (SecurityGate.normalizeFindings src table now raws).length = raws.length := by
  constructor
  · simp [SecurityGate.normalizeSeverity, hl]
  · simp [SecurityGate.normalizeFindings]

/-- Witness for C5: a label outside the sample table maps to high and
the sample report keeps both findings. -/
theorem c5_witness :
    SecurityGate.normalizeSeverity sampleTable "BLOCKER" = .high ∧
      (SecurityGate.normalizeFindings .staticAnalysis sampleTable 5 sampleRaws).length =
        sampleRaws.length :=
  c5_normalizer_fails_closed .staticAnalysis sampleTable 5 sampleRaws "BLOCKER" (by decide)

theorem sg_countsOf_empty (rs : List SecurityGate.ScanResult) :
    (∀ r ∈ rs, r.findings = ([] : List SecurityGate.Finding)) →
    SecurityGate.countsOf rs = SecurityGate.SeverityCounts.zero := by
  induction rs with
  | nil => intro _; rfl
  | cons r rest ih =>
    intro h
    have hr : r.findings = [] := h r (by simp)
    simp only [SecurityGate.countsOf, List.foldl_cons] at *
    rw [hr]
    simp only [SecurityGate.countFindings, List.foldl_nil]
    exact ih (fun x hx => h x (by simp [hx]))

/-- C6: with indeterminateOnMissingSource set, an expected source that
is absent and zero findings everywhere yield the outcome indeterminate,
not pass. -/
theorem c6_missing_source_indeterminate (runId : String) (generatedAt : Nat)
    (rs : List SecurityGate.ScanResult) (cfg : SecurityGate.SeverityPolicyConfig)
    (s : SecurityGate.Source)
    (hflag : cfg.indeterminateOnMissingSource = true)
    (hs : s ∈ cfg.expectedSources)
    (habs : SecurityGate.lookupResult rs s = none)
    (hempty : ∀ r ∈ rs, r.findings = ([] : List SecurityGate.Finding)) :
    (SecurityGate.decide (SecurityGate.aggregate runId generatedAt rs) cfg).outcome =
      .indeterminate := by
  have hcounts : ∀ t : SecurityGate.Severity,
      (SecurityGate.aggregate runId generatedAt rs).countsBySeverity.get t = 0 := by
    intro t
    have hz : SecurityGate.countsOf rs = SecurityGate.SeverityCounts.zero :=
      sg_countsOf_empty rs hempty
    simp only [SecurityGate.aggregate, hz]
    cases t <;> rfl
  have hviol : SecurityGate.violatedTiers
      (SecurityGate.aggregate runId generatedAt rs) cfg = [] := by
    unfold SecurityGate.violatedTiers
    rw [List.filter_eq_nil_iff]
    intro t _
    unfold SecurityGate.tierViolated
    cases hma : cfg.maxAllowed t with
    | none => simp
    | some m => simp [hcounts t]
  have hmiss : SecurityGate.missingSources
      (SecurityGate.aggregate runId generatedAt rs) cfg ≠ [] := by
    apply List.ne_nil_of_mem (a := s)
    unfold SecurityGate.missingSources
    rw [List.mem_filter]
    refine ⟨hs, ?_⟩
    simp only [SecurityGate.aggregate]
    unfold SecurityGate.sourceMissing
    rw [habs]
  simp only [SecurityGate.decide]
  rw [if_pos hviol, if_pos ⟨hmiss, hflag⟩]

/-- Witness for C6: the dependency scan is absent, the two present
sources completed with zero findings, the flag is set - the verdict is
indeterminate. -/
theorem c6_witness :
    sampleCfgStrict.indeterminateOnMissingSource = true ∧
      (SecurityGate.decide (SecurityGate.aggregate "run-3" 30 sampleCleanResults)
        sampleCfgStrict).outcome = .indeterminate :=
  ⟨by decide,
    c6_missing_source_indeterminate "run-3" 30 sampleCleanResults sampleCfgStrict
      .dependencyScan (by decide) (by decide) (by decide) (by decide)⟩

/-- C7: decide is deterministic - identical report and config inputs
yield byte-identical serialized GateVerdicts; the result depends on
nothing besides the two arguments. -/
theorem c7_decide_deterministic (r1 r2 : SecurityGate.AggregatedReport)
    (c1 c2 : SecurityGate.SeverityPolicyConfig) (hr : r1 = r2) (hc : c1 = c2) :
    SecurityGate.serializeVerdict (SecurityGate.decide r1 c1) =
      SecurityGate.serializeVerdict (SecurityGate.decide r2 c2) := by
  rw [hr, hc]

/-- Witness for C7 at a concrete report and config. -/
theorem c7_witness :
    SecurityGate.serializeVerdict
        (SecurityGate.decide sampleScenarioReport sampleCfgStrict) =
      SecurityGate.serializeVerdict
        (SecurityGate.decide sampleScenarioReport sampleCfgStrict) :=
  c7_decide_deterministic sampleScenarioReport sampleScenarioReport
    sampleCfgStrict sampleCfgStrict rfl rfl

/-! Monotonicity of the gate under an added finding. -/

theorem sg_sevCountF_cons (t : SecurityGate.Severity) (f : SecurityGate.Finding)
    (fs : List SecurityGate.Finding) :
    SecurityGate.sevCountF t (f :: fs) =
      (if f.severity = t then 1 else 0) + SecurityGate.sevCountF t fs := by
  by_cases h : f.severity = t <;>
    simp [SecurityGate.sevCountF, List.filter_cons, h] <;> omega

theorem sg_sevCountF_append_one (t : SecurityGate.Severity)
    (fs : List SecurityGate.Finding) (f : SecurityGate.Finding) :
    SecurityGate.sevCountF t (fs ++ [f]) =
      SecurityGate.sevCountF t fs + (if f.severity = t then 1 else 0) := by
  by_cases h : f.severity = t <;>
    simp [SecurityGate.sevCountF, List.filter_append, List.filter_cons, h]

theorem sg_countFindings_get (fs : List SecurityGate.Finding)
    (acc : SecurityGate.SeverityCounts) (t : SecurityGate.Severity) :
    (SecurityGate.countFindings fs acc).get t = acc.get t + SecurityGate.sevCountF t fs := by
  induction fs generalizing acc with
  | nil => simp [SecurityGate.countFindings, SecurityGate.sevCountF]
  | cons f fs ih =>
    simp only [SecurityGate.countFindings, List.foldl_cons] at *
    rw [ih, sg_get_incr, sg_sevCountF_cons]
    by_cases h : f.severity = t <;> simp [h] <;> omega

theorem sg_countsOf_get_aux (rs : List SecurityGate.ScanResult)
    (acc : SecurityGate.SeverityCounts) (t : SecurityGate.Severity) :
    (rs.foldl (fun a r => SecurityGate.countFindings r.findings a) acc).get t =
      acc.get t + SecurityGate.sevCountR t rs := by
  induction rs generalizing acc with
  | nil => simp [SecurityGate.sevCountR]
  | cons r rs ih =>
    simp only [List.foldl_cons]
    rw [ih, sg_countFindings_get]
    simp [SecurityGate.sevCountR]
    omega

theorem sg_countsOf_get (rs : List SecurityGate.ScanResult) (t : SecurityGate.Severity) :
    (SecurityGate.countsOf rs).get t = SecurityGate.sevCountR t rs := by
  unfold SecurityGate.countsOf
  rw [sg_countsOf_get_aux]
  cases t <;>
    simp [SecurityGate.SeverityCounts.zero, SecurityGate.SeverityCounts.get]

theorem sg_sevCountR_cons (t : SecurityGate.Severity) (r : SecurityGate.ScanResult)
    (rs : List SecurityGate.ScanResult) :
    SecurityGate.sevCountR t (r :: rs) =
      SecurityGate.sevCountF t r.findings + SecurityGate.sevCountR t rs := by
  simp [SecurityGate.sevCountR]

theorem sg_sevCountR_addFinding_le (t : SecurityGate.Severity)
    (rs : List SecurityGate.ScanResult) (src : SecurityGate.Source)
    (f : SecurityGate.Finding) :
    SecurityGate.sevCountR t rs ≤
      SecurityGate.sevCountR t (SecurityGate.addFindingToSource rs src f) := by
  induction rs with
  | nil => simp [SecurityGate.addFindingToSource, SecurityGate.sevCountR]
  | cons r rs ih =>
    simp only [SecurityGate.addFindingToSource, List.map_cons] at *
    rw [sg_sevCountR_cons, sg_sevCountR_cons]
    by_cases hr : r.source = src
    · rw [if_pos hr]
      simp only [sg_sevCountF_append_one]
      omega
    · rw [if_neg hr]
      omega

theorem sg_sevCountR_addFinding_eq (t : SecurityGate.Severity)
    (rs : List SecurityGate.ScanResult) (src : SecurityGate.Source)
    (f : SecurityGate.Finding) (hne : f.severity ≠ t) :
    SecurityGate.sevCountR t (SecurityGate.addFindingToSource rs src f) =
      SecurityGate.sevCountR t rs := by
  induction rs with
  | nil => simp [SecurityGate.addFindingToSource, SecurityGate.sevCountR]
  | cons r rs ih =>
    simp only [SecurityGate.addFindingToSource, List.map_cons] at *
    rw [sg_sevCountR_cons, sg_sevCountR_cons]
    by_cases hr : r.source = src
    · rw [if_pos hr]
      simp only [sg_sevCountF_append_one, if_neg hne]
      omega
    · rw [if_neg hr]
      omega

theorem sg_tierViolated_iff (report : SecurityGate.AggregatedReport)
    (cfg : SecurityGate.SeverityPolicyConfig) (t : SecurityGate.Severity) :
    SecurityGate.tierViolated report cfg t = true ↔
      ∃ m, cfg.maxAllowed t = some m ∧ m < report.countsBySeverity.get t := by
  unfold SecurityGate.tierViolated
  cases hma : cfg.maxAllowed t with
  | none => simp
  | some m =>
    by_cases hlt : m < report.countsBySeverity.get t <;> simp [hlt]

theorem sg_tierViolated_mono (runId : String) (generatedAt : Nat)
    (rs : List SecurityGate.ScanResult) (src : SecurityGate.Source)
    (f : SecurityGate.Finding) (cfg : SecurityGate.SeverityPolicyConfig)
    (t : SecurityGate.Severity)
    (ht : SecurityGate.tierViolated (SecurityGate.aggregate runId generatedAt rs) cfg t = true) :
    SecurityGate.tierViolated
      (SecurityGate.aggregate runId generatedAt (SecurityGate.addFindingToSource rs src f))
      cfg t = true := by
  rw [sg_tierViolated_iff] at ht ⊢
  obtain ⟨m, hma, hlt⟩ := ht
  refine ⟨m, hma, ?_⟩
  simp only [SecurityGate.aggregate] at hlt ⊢
  rw [sg_countsOf_get] at hlt
  rw [sg_countsOf_get]
  have hle := sg_sevCountR_addFinding_le t rs src f
  omega

theorem sg_violatedTiers_mono (runId : String) (generatedAt : Nat)
    (rs : List SecurityGate.ScanResult) (src : SecurityGate.Source)
    (f : SecurityGate.Finding) (cfg : SecurityGate.SeverityPolicyConfig)
    (h : SecurityGate.violatedTiers (SecurityGate.aggregate runId generatedAt rs) cfg ≠ []) :
    SecurityGate.violatedTiers
      (SecurityGate.aggregate runId generatedAt (SecurityGate.addFindingToSource rs src f))
      cfg ≠ [] := by
  obtain ⟨t, ht⟩ := List.exists_mem_of_ne_nil _ h
  rw [SecurityGate.violatedTiers, List.mem_filter] at ht
  apply List.ne_nil_of_mem (a := t)
  rw [SecurityGate.violatedTiers, List.mem_filter]
  exact ⟨ht.1, sg_tierViolated_mono runId generatedAt rs src f cfg t ht.2⟩

theorem sg_sourceMissing_addFinding (rs : List SecurityGate.ScanResult)
    (src : SecurityGate.Source) (f : SecurityGate.Finding) (s : SecurityGate.Source) :
    SecurityGate.sourceMissing (SecurityGate.addFindingToSource rs src f) s =
      SecurityGate.sourceMissing rs s := by
  induction rs with
  | nil => rfl
  | cons r rs ih =>
    unfold SecurityGate.sourceMissing at ih ⊢
    simp only [SecurityGate.addFindingToSource, List.map_cons] at ih ⊢
    by_cases hs : r.source = s
    · by_cases hr : r.source = src
      · rw [if_pos hr]
        simp only [SecurityGate.lookupResult]
        rw [if_pos (show ({ r with findings := r.findings ++ [f] } :
          SecurityGate.ScanResult).source = s from hs), if_pos hs]
      · rw [if_neg hr]
        simp only [SecurityGate.lookupResult]
        rw [if_pos hs, if_pos hs]
    · by_cases hr : r.source = src
      · rw [if_pos hr]
        simp only [SecurityGate.lookupResult]
        rw [if_neg (show ¬({ r with findings := r.findings ++ [f] } :
          SecurityGate.ScanResult).source = s from hs), if_neg hs]
        exact ih
      · rw [if_neg hr]
        simp only [SecurityGate.lookupResult]
        rw [if_neg hs, if_neg hs]
        exact ih

theorem sg_missingSources_addFinding (runId : String) (generatedAt : Nat)
    (rs : List SecurityGate.ScanResult) (src : SecurityGate.Source)
    (f : SecurityGate.Finding) (cfg : SecurityGate.SeverityPolicyConfig) :
    SecurityGate.missingSources
        (SecurityGate.aggregate runId generatedAt (SecurityGate.addFindingToSource rs src f))
        cfg =
      SecurityGate.missingSources (SecurityGate.aggregate runId generatedAt rs) cfg := by
  unfold SecurityGate.missingSources
  simp only [SecurityGate.aggregate]
  exact List.filter_congr (fun s _ => sg_sourceMissing_addFinding rs src f s)

/-- C4: adding one new critical finding to a source and re-running
decide never changes blocked into pass; a blocked verdict stays
blocked and a pass verdict can only stay pass or become blocked. -/
theorem c4_critical_monotonicity (runId : String) (generatedAt : Nat)
    (rs : List SecurityGate.ScanResult) (src : SecurityGate.Source)
    (f : SecurityGate.Finding) (cfg : SecurityGate.SeverityPolicyConfig)
    (hf : f.severity = SecurityGate.Severity.critical) :
    ((SecurityGate.decide (SecurityGate.aggregate runId generatedAt rs) cfg).outcome =
        .blocked →
      (SecurityGate.decide
        (SecurityGate.aggregate runId generatedAt
          (SecurityGate.addFindingToSource rs src f)) cfg).outcome = .blocked) ∧
    ((SecurityGate.decide (SecurityGate.aggregate runId generatedAt rs) cfg).outcome =
        .pass →
      (SecurityGate.decide
          (SecurityGate.aggregate runId generatedAt
            (SecurityGate.addFindingToSource rs src f)) cfg).outcome = .pass ∨
        (SecurityGate.decide
          (SecurityGate.aggregate runId generatedAt
            (SecurityGate.addFindingToSource rs src f)) cfg).outcome = .blocked) := by
  constructor
  · intro hb
    rw [sg_decide_blocked_iff] at hb ⊢
    exact sg_violatedTiers_mono runId generatedAt rs src f cfg hb
  · intro hp
    rw [sg_decide_pass_iff] at hp
    by_cases hv : SecurityGate.violatedTiers
        (SecurityGate.aggregate runId generatedAt
          (SecurityGate.addFindingToSource rs src f)) cfg = []
    · left
      rw [sg_decide_pass_iff]
      refine ⟨hv, ?_⟩
      rw [sg_missingSources_addFinding]
      exact hp.2
    · right
      rw [sg_decide_blocked_iff]
      exact hv

/-- Witness for C4: the one-critical report is blocked under the strict
config, and it stays blocked after a second critical finding is added
to the static analysis result. -/
theorem c4_witness :
    (SecurityGate.decide
      (SecurityGate.aggregate "run-1" 10
        (SecurityGate.addFindingToSource sampleReportOneCritical.results
          .staticAnalysis sampleNewCritical)) sampleCfgStrict).outcome = .blocked :=
  (c4_critical_monotonicity "run-1" 10 sampleReportOneCritical.results
      .staticAnalysis sampleNewCritical sampleCfgStrict (by decide)).1 (by decide)

/-! The OTP endpoint of server.js. -/

/-- C8: a POST to /api/send-otp answers 400 with a JSON status field of
error exactly when the body fails the otpSchema, the schema passes
exactly when the to field holds a valid email and the code field holds
exactly six decimal digits, and with EmailJS unconfigured every
schema-valid request answers 200 with success true. -/
theorem c8_send_otp_validation (env : Server.EmailJSEnv)
    (fetch : Server.FetchOutcome) (b : Server.OtpRequestBody) :
    (((Server.sendOtpRoute env fetch b).status = 400 ∧
        (Server.sendOtpRoute env fetch b).statusField = some "error") ↔
      Server.otpSchemaValidate b ≠ none) ∧
    (Server.otpSchemaValidate b = none ↔
      ∃ t c, b.«to» = some t ∧ b.code = some c ∧
        Server.joiEmail t = true ∧ Server.sixDigitCode c = true) ∧
    (Server.isEmailJSConfigured env = false → Server.otpSchemaValidate b = none →
      (Server.sendOtpRoute env fetch b).status = 200 ∧
        (Server.sendOtpRoute env fetch b).success = some true) := by
  refine ⟨?_, ?_, ?_⟩
  · cases h : Server.otpSchemaValidate b with
    | none =>
      simp only [Server.sendOtpRoute, h]
      by_cases hc : Server.isEmailJSConfigured env = false
      · simp [hc]
      · simp only [hc, if_neg]
        cases fetch <;> simp [hc]
    | some msg =>
      simp [Server.sendOtpRoute, h]
  · obtain ⟨bto, bcode⟩ := b
    cases bto with
    | none => simp [Server.otpSchemaValidate]
    | some t =>
      by_cases hj : Server.joiEmail t = true
      · cases bcode with
        | none => simp [Server.otpSchemaValidate, hj]
        | some c =>
          by_cases hc : Server.sixDigitCode c = true
          · simp [Server.otpSchemaValidate, hj, hc]
          · simp only [Bool.not_eq_true] at hc
            simp [Server.otpSchemaValidate, hj, hc]
      · simp only [Bool.not_eq_true] at hj
        simp [Server.otpSchemaValidate, hj]
  · intro hcfg hval
    simp [Server.sendOtpRoute, hval, hcfg]

/-- Witness for C8: with no EmailJS credentials set, the schema-valid
body of the server test suite receives 200 with success true. -/
theorem c8_witness :
    (Server.sendOtpRoute sampleEnvUnset .ok sampleValidBody).status = 200 ∧
      (Server.sendOtpRoute sampleEnvUnset .ok sampleValidBody).success = some true :=
  (c8_send_otp_validation sampleEnvUnset .ok sampleValidBody).2.2 (by decide) (by decide)

/-! Routing guard of the single-page application. -/

theorem spa_unhide_dashboard (p : Spa.PagesHidden) (name : String)
    (h : name ≠ "dashboard") :
    (Spa.unhide p name).dashboard = p.dashboard := by
  unfold Spa.unhide
  split_ifs <;> simp_all

theorem spa_unhide_history (p : Spa.PagesHidden) (name : String)
    (h : name ≠ "history") :
    (Spa.unhide p name).history = p.history := by
  unfold Spa.unhide
  split_ifs <;> simp_all

/-- C9: with a logged-out session, showPage on a protected page
redirects the hash to the login route and leaves every hidden flag
untouched, the nav-link click guard performs the same redirect, and
showPage on any name whatsoever keeps the dashboard and history pages
hidden. -/
theorem c9_logged_out_never_shows_protected (st : Spa.SpaState) (name : String)
    (hlog : st.loggedIn = false)
    (hname : name = "dashboard" ∨ name = "history")
    (hdash : st.pagesHidden.dashboard = true)
    (hhist : st.pagesHidden.history = true) :
    ((Spa.showPage st name).hash = "#/login" ∧
      (Spa.showPage st name).pagesHidden = st.pagesHidden) ∧
    ((Spa.navLinkClick st ("#/" ++ name)).hash = "#/login" ∧
      (Spa.navLinkClick st ("#/" ++ name)).pagesHidden = st.pagesHidden) ∧
    (∀ other : String,
      (Spa.showPage st other).pagesHidden.dashboard = true ∧
        (Spa.showPage st other).pagesHidden.history = true) := by
  refine ⟨?_, ?_, ?_⟩
  · have hmem : name ∈ Spa.protectedPages := by
      rcases hname with h | h <;> simp [Spa.protectedPages, h]
    rw [Spa.showPage, if_pos ⟨hmem, hlog⟩]
    exact ⟨rfl, rfl⟩
  · rcases hname with h | h <;> subst h
    · have hstrip : Spa.replaceHashSlash ("#/" ++ "dashboard") = "dashboard" := by decide
      have hne : ¬("#/" ++ "dashboard" = "" ∨ "#/" ++ "dashboard" = "#") := by decide
      rw [Spa.navLinkClick, if_neg hne]
      simp only [hstrip]
      rw [if_pos ⟨Or.inl trivial, hlog⟩]
      exact ⟨rfl, rfl⟩
    · have hstrip : Spa.replaceHashSlash ("#/" ++ "history") = "history" := by decide
      have hne : ¬("#/" ++ "history" = "" ∨ "#/" ++ "history" = "#") := by decide
      rw [Spa.navLinkClick, if_neg hne]
      simp only [hstrip]
      rw [if_pos ⟨Or.inr trivial, hlog⟩]
      exact ⟨rfl, rfl⟩
  · intro other
    rw [Spa.showPage]
    by_cases hcond : other ∈ Spa.protectedPages ∧ st.loggedIn = false
    · rw [if_pos hcond]
      exact ⟨hdash, hhist⟩
    · rw [if_neg hcond]
      have hother : other ∉ Spa.protectedPages := fun hmem => hcond ⟨hmem, hlog⟩
      simp only [Spa.protectedPages, List.mem_cons, List.mem_singleton] at hother
      push_neg at hother
      constructor
      · show (Spa.unhide Spa.allHidden other).dashboard = true
        rw [spa_unhide_dashboard Spa.allHidden other hother.1]
        rfl
      · show (Spa.unhide Spa.allHidden other).history = true
        rw [spa_unhide_history Spa.allHidden other hother.2.1]
        rfl

/-- Witness for C9: a logged-out state asked for the dashboard is
redirected to the login route, and showing the login page keeps the
dashboard hidden. -/
theorem c9_witness :
    (Spa.showPage sampleLoggedOut "dashboard").hash = "#/login" ∧
      (Spa.showPage sampleLoggedOut "login").pagesHidden.dashboard = true :=
  ⟨(c9_logged_out_never_shows_protected sampleLoggedOut "dashboard" rfl (Or.inl rfl)
      rfl rfl).1.1,
    ((c9_logged_out_never_shows_protected sampleLoggedOut "dashboard" rfl (Or.inl rfl)
      rfl rfl).2.2 "login").1⟩

/-! The OTP code generated by sendOTP. -/

theorem spa_otpRandomValue_bounds (n : Nat) :
    100000 ≤ Spa.otpRandomValue n ∧ Spa.otpRandomValue n ≤ 999999 := by
  unfold Spa.otpRandomValue
  have h : n % 900000 < 900000 := Nat.mod_lt _ (by norm_num)
  omega

theorem spa_otp_digits_length (n : Nat) :
    (Nat.digits 10 (Spa.otpRandomValue n)).length = 6 := by
  obtain ⟨hlo, hhi⟩ := spa_otpRandomValue_bounds n
  have hne : Spa.otpRandomValue n ≠ 0 := by omega
  rw [Nat.digits_len 10 _ (by norm_num) hne]
  have hlog : Nat.log 10 (Spa.otpRandomValue n) = 5 := by
    apply Nat.log_eq_of_pow_le_of_lt_pow
    · have e : (10 : Nat) ^ 5 = 100000 := by norm_num
      omega
    · have e : (10 : Nat) ^ 6 = 1000000 := by norm_num
      omega
  omega

/-- C10: for every 32-bit value of crypto.getRandomValues, the derived
OTP number lies in the inclusive range 100000 to 999999, so the code
string of sendOTP has exactly six characters and matches the
six-decimal-digit pattern the verification handler and the server-side
otpSchema require. -/
theorem c10_otp_always_six_digits (n : Nat) (hn : n < 2 ^ 32) :
    (100000 ≤ Spa.otpRandomValue n ∧ Spa.otpRandomValue n ≤ 999999) ∧
      (Spa.otpCodeCodes n).length = 6 ∧
      Server.sixDigitCodes (Spa.otpCodeCodes n) = true := by
  refine ⟨spa_otpRandomValue_bounds n, ?_, ?_⟩
  · unfold Spa.otpCodeCodes
    rw [List.length_map, List.length_reverse]
    exact spa_otp_digits_length n
  · have hlen : (Spa.otpCodeCodes n).length = 6 := by
      unfold Spa.otpCodeCodes
      rw [List.length_map, List.length_reverse]
      exact spa_otp_digits_length n
    unfold Server.sixDigitCodes
    rw [Bool.and_eq_true]
    constructor
    · simpa using hlen
    · rw [List.all_eq_true]
      intro x hx
      unfold Spa.otpCodeCodes at hx
      obtain ⟨d, hd, hxd⟩ := List.mem_map.mp hx
      have hdm : d ∈ Nat.digits 10 (Spa.otpRandomValue n) :=
        List.mem_reverse.mp hd
      have hdlt : d < 10 := Nat.digits_lt_base (by norm_num) hdm
      subst hxd
      unfold Server.isDigitCode
      rw [decide_eq_true_eq]
      omega

/-- Witness for C10 at the 32-bit value zero. -/
theorem c10_witness :
    (100000 ≤ Spa.otpRandomValue 0 ∧ Spa.otpRandomValue 0 ≤ 999999) ∧
      (Spa.otpCodeCodes 0).length = 6 ∧
      Server.sixDigitCodes (Spa.otpCodeCodes 0) = true :=
  c10_otp_always_six_digits 0 (by decide)
